import Mathlib

/-!
Verification of the real-time motion-control core of the VoiceInteraction
robot system (`VoiceInteraction/action_manager.py`, `VoiceInteraction/bridge.py`,
`VoiceInteraction/config.py`).

Python floats are modelled as exact rationals (`ℚ`); no claim in this
development depends on binary floating-point rounding.  The constant
`math.pi` is modelled by the exact rational value of the IEEE-754 double
closest to pi.  Stateful methods of `ActionManager` become explicit state
transformers; the 100 Hz control loop becomes a per-tick step function with
the wall clock passed in as an explicit `now` argument.
-/

namespace UnitreeG1

/-- `ActionType` enum of `action_manager.py`. -/
inductive ActionType where
  | IDLE
  | MOVE
  | STOP
  | EMERGENCY
deriving DecidableEq

/-- `TaskStatus` enum of `action_manager.py`. -/
inductive TaskStatus where
  | PENDING
  | RUNNING
  | COMPLETED
  | FAILED
  | CANCELLED
deriving DecidableEq

/-- Commands the core sends to the robot SDK (`g1_client`): `Move(vx,vy,vyaw)`,
`Damp()`, and `Squat2StandUp()`. -/
inductive SDKCommand where
  | move (vx vy vyaw : ℚ)
  | damp
  | squatToStand
deriving DecidableEq

/-- The velocity state of `ActionManager`: the fields `_target_vx`,
`_target_vy`, `_target_vyaw`, `_current_action`, `_emergency_flag`,
`_move_start_time`, `_move_duration`, all guarded by the single velocity
mutex `_lock` in the source. -/
structure VelState where
  vx : ℚ
  vy : ℚ
  vyaw : ℚ
  currentAction : ActionType
  emergencyFlag : Bool
  moveStartTime : ℚ
  moveDuration : Option ℚ
deriving DecidableEq

/-- Initial velocity state set in `ActionManager.__init__`. -/
def initVelState : VelState :=
  { vx := 0, vy := 0, vyaw := 0, currentAction := ActionType.IDLE,
    emergencyFlag := false, moveStartTime := 0, moveDuration := none }

/-- `ActionManager.update_target_velocity` (action_manager.py lines 174-208).
Each axis is clamped only when outside its range, exactly as in the source
(`if not (-1.0 <= vx <= 1.0): vx = max(-1.0, min(1.0, vx))`).  The start
time is `time.time() if duration else 0.0`: Python truthiness makes a
`duration` of `0.0` behave like an absent one for this field. -/
def update_target_velocity (s : VelState) (vx vy vyaw : ℚ) (duration : Option ℚ)
    (now : ℚ) : VelState :=
  let vx := if ¬(-1 ≤ vx ∧ vx ≤ 1) then max (-1) (min 1 vx) else vx
  let vy := if ¬(-1 ≤ vy ∧ vy ≤ 1) then max (-1) (min 1 vy) else vy
  let vyaw := if ¬(-(3/2) ≤ vyaw ∧ vyaw ≤ 3/2) then max (-(3/2)) (min (3/2) vyaw) else vyaw
  { s with
    vx := vx, vy := vy, vyaw := vyaw,
    currentAction := ActionType.MOVE,
    emergencyFlag := false,
    moveDuration := duration,
    moveStartTime := match duration with
      | some d => if d = 0 then 0 else now
      | none => 0 }

/-- Velocity-state effect of `ActionManager.emergency_stop` (lines 210-227).
Its task-queue effect is `clear_task_queue` below, and it additionally sends
an immediate `Damp()` to the SDK. -/
def emergency_stop (s : VelState) : VelState :=
  { s with
    vx := 0
    vy := 0
    vyaw := 0
    currentAction := ActionType.EMERGENCY
    emergencyFlag := true }

/-- `ActionManager.set_idle` (lines 249-258). -/
def set_idle (s : VelState) : VelState :=
  { s with
    vx := 0
    vy := 0
    vyaw := 0
    currentAction := ActionType.IDLE
    emergencyFlag := false }

/-- `ActionManager.recover_from_emergency` (lines 229-247): new state,
returned boolean, and SDK calls made (the no-exception path of
`Squat2StandUp`). -/
def recover_from_emergency (s : VelState) : VelState × Bool × List SDKCommand :=
  if s.currentAction ≠ ActionType.EMERGENCY then
    (s, false, [])
  else
    ({ s with currentAction := ActionType.IDLE, emergencyFlag := false },
      true, [SDKCommand.squatToStand])

/-- One iteration of `ActionManager._control_loop` (lines 289-326) in the
uninterleaved case: no other thread writes the state between the three lock
acquisitions of the tick, so all three snapshots coincide.  Returns the new
velocity state and the SDK commands emitted this tick.

Faithful details: in the `MOVE` branch the second emergency re-check sees
the same (non-emergency) state; on duration expiry the loop calls
`set_idle()` but still sends `Move` with the local `vx, vy, vyaw` values
that were read at the top of the tick (line 326), i.e. the pre-expiry
targets.  In the `STOP` branch no SDK command is sent at all. -/
def control_loop_tick (s : VelState) (now : ℚ) : VelState × List SDKCommand :=
  match s.currentAction with
  | ActionType.EMERGENCY => (s, [SDKCommand.damp])
  | ActionType.MOVE =>
      match s.moveDuration with
      | some d =>
          if now - s.moveStartTime > d then
            (set_idle s, [SDKCommand.move s.vx s.vy s.vyaw])
          else
            (s, [SDKCommand.move s.vx s.vy s.vyaw])
      | none => (s, [SDKCommand.move s.vx s.vy s.vyaw])
  | ActionType.IDLE => (s, [SDKCommand.move s.vx s.vy s.vyaw])
  | ActionType.STOP => (s, [])

/-- SDK commands emitted by one control-loop tick as a function of the state
snapshots taken at its lock acquisitions: `s1` is the state read at the
first acquisition (lines 295-299), `s2` the state observed by the second
emergency re-check (lines 308-312).  The later duration re-read and the
`set_idle` call affect only the stored state, never which command the tick
emits, so the commands depend on `s1` and `s2` alone; the emitted `Move`
always carries the velocities of `s1`. -/
def tickCommands (s1 s2 : VelState) : List SDKCommand :=
  match s1.currentAction with
  | ActionType.EMERGENCY => [SDKCommand.damp]
  | ActionType.MOVE =>
      if s2.currentAction = ActionType.EMERGENCY then [SDKCommand.damp]
      else [SDKCommand.move s1.vx s1.vy s1.vyaw]
  | ActionType.IDLE =>
      if s2.currentAction = ActionType.EMERGENCY then [SDKCommand.damp]
      else [SDKCommand.move s1.vx s1.vy s1.vyaw]
  | ActionType.STOP => []

/-- In the uninterleaved tick the snapshot view agrees with the step
function. -/
theorem control_loop_tick_commands (s : VelState) (now : ℚ) :
    (control_loop_tick s now).2 = tickCommands s s := by
  cases h : s.currentAction <;>
    cases hd : s.moveDuration <;>
      simp [control_loop_tick, tickCommands, h, hd] <;>
      split <;> rfl

/-- Claim C1: on every heartbeat tick taken while `current_action ==
EMERGENCY`, the control loop calls the SDK `damp()` and never `move()`; the
same holds on a tick that read `MOVE` or `IDLE` at its first lock
acquisition but observes `EMERGENCY` at the second mutex re-check before
sending the command. -/
theorem emergency_tick_only_damp (s1 s2 : VelState) :
    (s1.currentAction = ActionType.EMERGENCY →
      tickCommands s1 s2 = [SDKCommand.damp]) ∧
    ((s1.currentAction = ActionType.MOVE ∨ s1.currentAction = ActionType.IDLE) →
      s2.currentAction = ActionType.EMERGENCY →
      tickCommands s1 s2 = [SDKCommand.damp]) ∧
    (∀ a b c, s1.currentAction = ActionType.EMERGENCY ∨
        s2.currentAction = ActionType.EMERGENCY →
      SDKCommand.move a b c ∉ tickCommands s1 s2) := by
  refine ⟨fun h1 => by simp [tickCommands, h1], fun h1 h2 => ?_, fun a b c h => ?_⟩
  · rcases h1 with h1 | h1 <;> simp [tickCommands, h1, h2]
  · cases h1 : s1.currentAction <;> rcases h with h | h <;>
      simp_all [tickCommands]

/-- Witness for C1: concrete emergency ticks emit exactly `damp`. -/
theorem emergency_tick_only_damp_witness :
    tickCommands (emergency_stop initVelState) initVelState = [SDKCommand.damp] ∧
    tickCommands initVelState (emergency_stop initVelState) = [SDKCommand.damp] :=
  ⟨(emergency_tick_only_damp (emergency_stop initVelState) initVelState).1 (by decide),
   (emergency_tick_only_damp initVelState (emergency_stop initVelState)).2.1
     (Or.inr (by decide)) (by decide)⟩

/-- Claim C2 (amended): on the heartbeat tick where the action is `MOVE`,
`move_duration` is present and `now - move_start_time > move_duration`, the
loop transitions to `IDLE` (velocities set to 0, action `IDLE`) and still
emits a `move` command on that same tick — but with the velocities read at
the top of the tick (the pre-expiry targets), not `(0,0,0)`; every tick
strictly after the expiry tick emits `move(0,0,0)`. -/
theorem auto_stop_tick (s : VelState) (d now : ℚ)
    (hA : s.currentAction = ActionType.MOVE)
    (hD : s.moveDuration = some d)
    (hT : now - s.moveStartTime > d) :
    (control_loop_tick s now).1 = set_idle s ∧
    (control_loop_tick s now).1.vx = 0 ∧
    (control_loop_tick s now).1.vy = 0 ∧
    (control_loop_tick s now).1.vyaw = 0 ∧
    (control_loop_tick s now).1.currentAction = ActionType.IDLE ∧
    (control_loop_tick s now).2 = [SDKCommand.move s.vx s.vy s.vyaw] ∧
    ∀ now2, control_loop_tick (control_loop_tick s now).1 now2 =
      ((control_loop_tick s now).1, [SDKCommand.move 0 0 0]) := by
  have hstep : control_loop_tick s now =
      (set_idle s, [SDKCommand.move s.vx s.vy s.vyaw]) := by
    simp [control_loop_tick, hA, hD, hT]
  refine ⟨by rw [hstep], by rw [hstep]; rfl, by rw [hstep]; rfl,
    by rw [hstep]; rfl, by rw [hstep]; rfl, by rw [hstep], fun now2 => ?_⟩
  rw [hstep]
  simp [control_loop_tick, set_idle]

/-- Witness for C2 (amended): after `update_target_velocity(0.5, 0, 0,
duration=0.2)` at time 0, the tick at time 1 has expired. -/
theorem auto_stop_tick_witness :
    (control_loop_tick (update_target_velocity initVelState (1/2) 0 0 (some (1/5)) 0) 1).2 =
      [SDKCommand.move (update_target_velocity initVelState (1/2) 0 0 (some (1/5)) 0).vx
        (update_target_velocity initVelState (1/2) 0 0 (some (1/5)) 0).vy
        (update_target_velocity initVelState (1/2) 0 0 (some (1/5)) 0).vyaw] ∧
    (control_loop_tick (update_target_velocity initVelState (1/2) 0 0 (some (1/5)) 0) 1).1.currentAction =
      ActionType.IDLE :=
  ⟨((auto_stop_tick (update_target_velocity initVelState (1/2) 0 0 (some (1/5)) 0)
      (1/5) 1 rfl rfl (by norm_num [update_target_velocity])).2.2.2.2.2.1),
   ((auto_stop_tick (update_target_velocity initVelState (1/2) 0 0 (some (1/5)) 0)
      (1/5) 1 rfl rfl (by norm_num [update_target_velocity])).2.2.2.2.1)⟩

/-- Counterexample for C2 as stated: after `update_target_velocity(0.5, 0, 0,
duration=0.2)` at time 0, the expiry tick at time 1 satisfies the claim's
trigger condition, yet the command it emits is `move(0.5, 0, 0)`, not the
claimed `move(0, 0, 0)`. -/
theorem auto_stop_tick_counterexample :
    (update_target_velocity initVelState (1/2) 0 0 (some (1/5)) 0).currentAction =
      ActionType.MOVE ∧
    (update_target_velocity initVelState (1/2) 0 0 (some (1/5)) 0).moveDuration =
      some (1/5) ∧
    (1 : ℚ) - (update_target_velocity initVelState (1/2) 0 0 (some (1/5)) 0).moveStartTime
      > 1/5 ∧
    (control_loop_tick (update_target_velocity initVelState (1/2) 0 0 (some (1/5)) 0) 1).2 ≠
      [SDKCommand.move 0 0 0] := by
  refine ⟨rfl, rfl, by norm_num [update_target_velocity], ?_⟩
  have hcmd : (control_loop_tick (update_target_velocity initVelState (1/2) 0 0 (some (1/5)) 0) 1).2 =
      [SDKCommand.move (1/2) 0 0] := by
    norm_num [control_loop_tick, update_target_velocity, set_idle]
  rw [hcmd]
  have h2 : ((1 : ℚ)/2) ≠ 0 := by norm_num
  simp [h2]

/-- Claim C8: `recover_from_emergency()` called outside `EMERGENCY` returns
`false` and changes no state (and performs no SDK call); called from
`EMERGENCY` it sets the action to `IDLE`, clears the emergency flag, calls
the SDK `squat_to_stand` (`Squat2StandUp`), and returns `true`. -/
theorem recover_from_emergency_spec (s : VelState) :
    (s.currentAction ≠ ActionType.EMERGENCY →
      recover_from_emergency s = (s, false, [])) ∧
    (s.currentAction = ActionType.EMERGENCY →
      recover_from_emergency s =
        ({ s with currentAction := ActionType.IDLE, emergencyFlag := false },
          true, [SDKCommand.squatToStand])) := by
  constructor <;> intro h <;> simp [recover_from_emergency, h]

/-- Witness for C8 at concrete states on both sides of the precondition. -/
theorem recover_from_emergency_spec_witness :
    recover_from_emergency initVelState = (initVelState, false, []) ∧
    recover_from_emergency (emergency_stop initVelState) =
      ({ emergency_stop initVelState with
          currentAction := ActionType.IDLE, emergencyFlag := false },
        true, [SDKCommand.squatToStand]) :=
  ⟨(recover_from_emergency_spec initVelState).1 (by decide),
   (recover_from_emergency_spec (emergency_stop initVelState)).2 (by decide)⟩

/-- The guarded clamp of the source (`if not in range: clamp`) equals the
unconditional clamp. -/
theorem clamp_cond_eq (lim x : ℚ) :
    (if ¬(-lim ≤ x ∧ x ≤ lim) then max (-lim) (min lim x) else x) =
      max (-lim) (min lim x) := by
  split
  · rfl
  · rename_i hx
    push_neg at hx
    rw [min_eq_right hx.2, max_eq_right hx.1]

/-- Field values produced by `update_target_velocity`. -/
theorem update_target_velocity_fields (s : VelState) (vx vy vyaw : ℚ)
    (dur : Option ℚ) (now : ℚ) :
    (update_target_velocity s vx vy vyaw dur now).vx = max (-1) (min 1 vx) ∧
    (update_target_velocity s vx vy vyaw dur now).vy = max (-1) (min 1 vy) ∧
    (update_target_velocity s vx vy vyaw dur now).vyaw = max (-(3/2)) (min (3/2) vyaw) :=
  ⟨clamp_cond_eq 1 vx, clamp_cond_eq 1 vy, clamp_cond_eq (3/2) vyaw⟩

/-- `recover_from_emergency` either leaves the state unchanged or moves it
to `IDLE` with the flag cleared, keeping the velocities. -/
theorem recover_cases (s : VelState) :
    (recover_from_emergency s).1 = s ∨
    (recover_from_emergency s).1 =
      { s with currentAction := ActionType.IDLE, emergencyFlag := false } := by
  by_cases hc : s.currentAction = ActionType.EMERGENCY <;>
    simp [recover_from_emergency, hc]

/-- Claim C9 (amended): `update_target_velocity(vx, vy, vyaw, duration)`
stores the clamped target velocities, sets the action to `MOVE`, clears the
emergency flag and records `move_duration = duration`; `move_start_time` is
set to the current time when a nonzero duration is provided, but to `0.0`
when the duration is `0.0` (Python truthiness treats it like an absent
duration for this field) or absent. -/
theorem update_target_velocity_spec (s : VelState) (vx vy vyaw : ℚ)
    (dur : Option ℚ) (now : ℚ) :
    (update_target_velocity s vx vy vyaw dur now).vx = max (-1) (min 1 vx) ∧
    (update_target_velocity s vx vy vyaw dur now).vy = max (-1) (min 1 vy) ∧
    (update_target_velocity s vx vy vyaw dur now).vyaw = max (-(3/2)) (min (3/2) vyaw) ∧
    (update_target_velocity s vx vy vyaw dur now).currentAction = ActionType.MOVE ∧
    (update_target_velocity s vx vy vyaw dur now).emergencyFlag = false ∧
    (update_target_velocity s vx vy vyaw dur now).moveDuration = dur ∧
    (∀ d, dur = some d → d ≠ 0 →
      (update_target_velocity s vx vy vyaw dur now).moveStartTime = now) ∧
    ((dur = none ∨ dur = some 0) →
      (update_target_velocity s vx vy vyaw dur now).moveStartTime = 0) := by
  refine ⟨(update_target_velocity_fields s vx vy vyaw dur now).1,
    (update_target_velocity_fields s vx vy vyaw dur now).2.1,
    (update_target_velocity_fields s vx vy vyaw dur now).2.2,
    rfl, rfl, rfl, ?_, ?_⟩
  · rintro d rfl hd
    simp [update_target_velocity, hd]
  · rintro (rfl | rfl) <;> simp [update_target_velocity]

/-- Witness for C9 (amended) at concrete arguments, including a clamped
axis and a nonzero duration. -/
theorem update_target_velocity_spec_witness :
    (update_target_velocity initVelState 2 0 0 (some 3) 7).vx = max (-1) (min 1 2) ∧
    (update_target_velocity initVelState 2 0 0 (some 3) 7).moveStartTime = 7 ∧
    (update_target_velocity initVelState 2 0 0 (some 0) 7).moveStartTime = 0 :=
  ⟨(update_target_velocity_spec initVelState 2 0 0 (some 3) 7).1,
   (update_target_velocity_spec initVelState 2 0 0 (some 3) 7).2.2.2.2.2.2.1
     3 rfl (by norm_num),
   (update_target_velocity_spec initVelState 2 0 0 (some 0) 7).2.2.2.2.2.2.2
     (Or.inr rfl)⟩

/-- Counterexample for C9 as stated: a call with the provided duration
`0.0` at time 5 records `move_start_time = 0.0`, not the current time 5 as
the claim asserts (the claim includes the case `duration = 0.0`). -/
theorem update_target_velocity_zero_duration_counterexample :
    (update_target_velocity initVelState (3/10) 0 0 (some 0) 5).moveDuration = some 0 ∧
    (update_target_velocity initVelState (3/10) 0 0 (some 0) 5).moveStartTime = 0 ∧
    ¬ (update_target_velocity initVelState (3/10) 0 0 (some 0) 5).moveStartTime = 5 := by
  decide

/-- Velocity states reachable from the initial `ActionManager` state by any
interleaving of the facade operations (`update_target_velocity`,
`set_idle`, `emergency_stop`, `recover_from_emergency`) and control-loop
ticks. -/
inductive ReachableVel : VelState → Prop where
  | init : ReachableVel initVelState
  | update {s} (vx vy vyaw : ℚ) (dur : Option ℚ) (now : ℚ) :
      ReachableVel s → ReachableVel (update_target_velocity s vx vy vyaw dur now)
  | idle {s} : ReachableVel s → ReachableVel (set_idle s)
  | emergency {s} : ReachableVel s → ReachableVel (emergency_stop s)
  | recover {s} : ReachableVel s → ReachableVel (recover_from_emergency s).1
  | tick {s} (now : ℚ) : ReachableVel s → ReachableVel (control_loop_tick s now).1

/-- A control-loop tick either leaves the velocity state unchanged or
applies `set_idle` to it (auto-stop). -/
theorem control_loop_tick_state (s : VelState) (now : ℚ) :
    (control_loop_tick s now).1 = s ∨ (control_loop_tick s now).1 = set_idle s := by
  cases h : s.currentAction <;>
    cases hd : s.moveDuration <;>
      simp [control_loop_tick, h, hd]
  split <;> simp

/-- Every reachable velocity state keeps the target velocities inside the
SDK-facing hard limits. -/
theorem reachable_vel_bounds {s0 : VelState} (h : ReachableVel s0) :
    |s0.vx| ≤ 1 ∧ |s0.vy| ≤ 1 ∧ |s0.vyaw| ≤ 3/2 := by
  have habs : ∀ lim x : ℚ, 0 < lim → |max (-lim) (min lim x)| ≤ lim := by
    intro lim x hlim
    rw [abs_le]
    exact ⟨le_max_left _ _, max_le (by linarith) (min_le_left _ _)⟩
  induction h with
  | init =>
      refine ⟨by norm_num [initVelState], by norm_num [initVelState],
        by norm_num [initVelState]⟩
  | update vx vy vyaw dur now hs ih =>
      rename_i t
      have h1 := update_target_velocity_fields t vx vy vyaw dur now
      refine ⟨?_, ?_, ?_⟩
      · rw [h1.1]; exact habs 1 vx (by norm_num)
      · rw [h1.2.1]; exact habs 1 vy (by norm_num)
      · rw [h1.2.2]; exact habs (3/2) vyaw (by norm_num)
  | idle hs ih =>
      refine ⟨by norm_num [set_idle], by norm_num [set_idle], by norm_num [set_idle]⟩
  | emergency hs ih =>
      refine ⟨by norm_num [emergency_stop], by norm_num [emergency_stop],
        by norm_num [emergency_stop]⟩
  | recover hs ih =>
      rename_i t
      rcases recover_cases t with heq | heq <;> rw [heq]
      · exact ih
      · exact ih
  | tick now hs ih =>
      rename_i t
      rcases control_loop_tick_state t now with heq | heq <;> rw [heq]
      · exact ih
      · refine ⟨by norm_num [set_idle], by norm_num [set_idle], by norm_num [set_idle]⟩

/-- Claim C3: every `move(vx, vy, vyaw)` emitted by a control-loop tick
from a reachable velocity state satisfies the SDK-facing hard limits
`|vx| ≤ 1.0`, `|vy| ≤ 1.0` and `|vyaw| ≤ 1.5` — `update_target_velocity`
clamps before storing, and `set_idle`, `emergency_stop` and the initial
state hold zero velocities.  `s2` is the snapshot at the tick's second
lock acquisition, so the statement covers racing facade calls too. -/
theorem emitted_move_within_hard_limits (s1 s2 : VelState)
    (h : ReachableVel s1) :
    ∀ a b c, SDKCommand.move a b c ∈ tickCommands s1 s2 →
      |a| ≤ 1 ∧ |b| ≤ 1 ∧ |c| ≤ 3/2 := by
  intro a b c hmem
  obtain ⟨hx, hy, hw⟩ := reachable_vel_bounds h
  have habc : a = s1.vx ∧ b = s1.vy ∧ c = s1.vyaw := by
    cases h1 : s1.currentAction
    · simp only [tickCommands, h1] at hmem
      split at hmem <;> simp_all
    · simp only [tickCommands, h1] at hmem
      split at hmem <;> simp_all
    · simp only [tickCommands, h1] at hmem
      simp at hmem
    · simp only [tickCommands, h1] at hmem
      simp at hmem
  obtain ⟨rfl, rfl, rfl⟩ := habc
  exact ⟨hx, hy, hw⟩

/-- Witness for C3: the tick from the initial state emits `move(0,0,0)`,
which is within the limits. -/
theorem emitted_move_within_hard_limits_witness :
    |(0 : ℚ)| ≤ 1 ∧ |(0 : ℚ)| ≤ 1 ∧ |(0 : ℚ)| ≤ 3/2 :=
  emitted_move_within_hard_limits initVelState initVelState ReachableVel.init
    0 0 0 (by simp [tickCommands, initVelState])

/-- Claim C4: in every reachable state, `current_action == EMERGENCY`
implies `emergency_flag == true` and `(vx, vy, vyaw) == (0, 0, 0)`.
`ReachableVel` closes the states under all four facade operations of the
claim (and, in addition, under control-loop ticks). -/
theorem emergency_state_invariant (s : VelState) (h : ReachableVel s)
    (hE : s.currentAction = ActionType.EMERGENCY) :
    s.emergencyFlag = true ∧ s.vx = 0 ∧ s.vy = 0 ∧ s.vyaw = 0 := by
  induction h with
  | init => simp [initVelState] at hE
  | update vx vy vyaw dur now hs ih =>
      simp [update_target_velocity] at hE
  | idle hs ih => simp [set_idle] at hE
  | emergency hs ih =>
      exact ⟨rfl, rfl, rfl, rfl⟩
  | recover hs ih =>
      rename_i t
      rcases recover_cases t with heq | heq <;> rw [heq] at hE ⊢
      · exact ih hE
      · simp at hE
  | tick now hs ih =>
      rename_i t
      rcases control_loop_tick_state t now with heq | heq <;> rw [heq] at hE ⊢
      · exact ih hE
      · simp [set_idle] at hE

/-- Witness for C4 at the concrete reachable emergency state. -/
theorem emergency_state_invariant_witness :
    (emergency_stop initVelState).emergencyFlag = true ∧
    (emergency_stop initVelState).vx = 0 ∧
    (emergency_stop initVelState).vy = 0 ∧
    (emergency_stop initVelState).vyaw = 0 :=
  emergency_state_invariant (emergency_stop initVelState)
    (ReachableVel.emergency ReachableVel.init) (by decide)

/-! ## Bridge layer (`bridge.py`) and safety configuration (`config.py`) -/

/-- `SAFETY_CONFIG["MAX_SAFE_SPEED_VX"]`. -/
def MAX_SAFE_SPEED_VX : ℚ := 1
/-- `SAFETY_CONFIG["MAX_SAFE_SPEED_VY"]`. -/
def MAX_SAFE_SPEED_VY : ℚ := 1
/-- `SAFETY_CONFIG["MAX_SAFE_OMEGA"]`. -/
def MAX_SAFE_OMEGA : ℚ := 2
/-- `SAFETY_CONFIG["MAX_DURATION"]`. -/
def MAX_DURATION : ℚ := 10
/-- `SAFETY_CONFIG["DEFAULT_DURATION"]`. -/
def DEFAULT_DURATION : ℚ := 1
/-- `SAFETY_CONFIG["MIN_DURATION"]`. -/
def MIN_DURATION : ℚ := 1/10
/-- `SAFETY_CONFIG["MAX_ROTATION_DEGREES"]`. -/
def MAX_ROTATION_DEGREES : ℚ := 180
/-- `SAFETY_CONFIG["MIN_ROTATION_DEGREES"]`. -/
def MIN_ROTATION_DEGREES : ℚ := -180

/-- The IEEE-754 double closest to pi: the exact rational value of Python's
`math.pi`, used to model `math.radians`. -/
def PI_FLOAT : ℚ := 884279719003555 / 281474976710656

/-- Python `f"{q:.2f}"` formatting, modelled for rationals.  Python rounds
the underlying double half-to-even; this model rounds half up — the two
agree on every value formatted in this development (all are exact at two
decimals, so no tie or rounding occurs). -/
def fmt2 (q : ℚ) : String :=
  let cents : ℕ := (⌊|q| * 100 + 1/2⌋).toNat
  (if q < 0 then "-" else "") ++ Nat.repr (cents / 100) ++ "." ++
    (if cents % 100 < 10 then "0" ++ Nat.repr (cents % 100) else Nat.repr (cents % 100))

/-- Python `f"{q:.1f}"` formatting, modelled for rationals (same caveat as
`fmt2`). -/
def fmt1 (q : ℚ) : String :=
  let tenths : ℕ := (⌊|q| * 10 + 1/2⌋).toNat
  (if q < 0 then "-" else "") ++ Nat.repr (tenths / 10) ++ "." ++ Nat.repr (tenths % 10)

/-- Post-clamp parameter record returned by `validate_movement_params`
(the `safe_params` dict). -/
structure SafeParams where
  vx : ℚ
  vy : ℚ
  vyaw : ℚ
  duration : ℚ
deriving DecidableEq

/-- `validate_movement_params` (bridge.py lines 25-96): per-axis clamping to
the `SAFETY_CONFIG` envelope, duration clamping (or `DEFAULT_DURATION` when
absent), warning strings for every field clipped by more than `0.001`, and
`is_valid` true iff no warning was produced.  The log call (line 91) has no
modelled effect. -/
def validate_movement_params (vx vy vyaw : ℚ) (duration : Option ℚ) :
    Bool × String × SafeParams :=
  let vx_safe := max (-MAX_SAFE_SPEED_VX) (min vx MAX_SAFE_SPEED_VX)
  let vy_safe := max (-MAX_SAFE_SPEED_VY) (min vy MAX_SAFE_SPEED_VY)
  let vyaw_safe := max (-MAX_SAFE_OMEGA) (min vyaw MAX_SAFE_OMEGA)
  let w1 : List String :=
    if |vx - vx_safe| > 1/1000 then
      ["vx=" ++ fmt2 vx ++ " 超限，已截断为 " ++ fmt2 vx_safe] else []
  let w2 : List String :=
    if |vy - vy_safe| > 1/1000 then
      ["vy=" ++ fmt2 vy ++ " 超限，已截断为 " ++ fmt2 vy_safe] else []
  let w3 : List String :=
    if |vyaw - vyaw_safe| > 1/1000 then
      ["vyaw=" ++ fmt2 vyaw ++ " 超限，已截断为 " ++ fmt2 vyaw_safe] else []
  match duration with
  | some d =>
      let duration_safe := max MIN_DURATION (min d MAX_DURATION)
      let w4 : List String :=
        if |d - duration_safe| > 1/1000 then
          ["duration=" ++ fmt2 d ++ " 超限，已截断为 " ++ fmt2 duration_safe] else []
      let warnings := w1 ++ w2 ++ w3 ++ w4
      (warnings.isEmpty, String.intercalate "; " warnings,
        ⟨vx_safe, vy_safe, vyaw_safe, duration_safe⟩)
  | none =>
      let warnings := w1 ++ w2 ++ w3
      (warnings.isEmpty, String.intercalate "; " warnings,
        ⟨vx_safe, vy_safe, vyaw_safe, DEFAULT_DURATION⟩)

/-- `validate_rotation_angle` (bridge.py lines 99-123). -/
def validate_rotation_angle (degrees : ℚ) : Bool × String × ℚ :=
  let degrees_safe := max MIN_ROTATION_DEGREES (min degrees MAX_ROTATION_DEGREES)
  let warning :=
    if |degrees - degrees_safe| > 1/1000 then
      "角度=" ++ fmt1 degrees ++ "° 超限，已截断为 " ++ fmt1 degrees_safe ++ "°"
    else ""
  (warning = "", warning, degrees_safe)

/-! ## Task queue (`ActionManager` task-side state) -/

/-- `RobotTask` (action_manager.py lines 40-50).  The `parameters` dict is
modelled by the optional fields `paramVx`, `paramVy`, `paramVyaw`,
`paramDegrees` — exactly the keys the code ever stores (`move` tasks store
`vx`, `vy`, `vyaw`; `rotate` tasks store `vyaw`, `degrees`). -/
structure RobotTask where
  taskId : String
  taskType : String
  paramVx : Option ℚ
  paramVy : Option ℚ
  paramVyaw : Option ℚ
  paramDegrees : Option ℚ
  duration : ℚ
  status : TaskStatus
  createdTime : ℚ
  startTime : Option ℚ
  endTime : Option ℚ
deriving DecidableEq

/-- Task-side state of `ActionManager`: `_task_queue`, `_current_task`,
`_next_task_id`, `_completed_tasks` (a Python dict, modelled as an
insertion-ordered association list) and `_max_history_size`. -/
structure TaskState where
  taskQueue : List RobotTask
  currentTask : Option RobotTask
  nextTaskId : ℕ
  completedTasks : List (String × RobotTask)
  maxHistorySize : ℕ
deriving DecidableEq

/-- Task-side state set in `ActionManager.__init__`. -/
def initTaskState : TaskState :=
  { taskQueue := [], currentTask := none, nextTaskId := 0,
    completedTasks := [], maxHistorySize := 100 }

/-- Insertion into a Python dict: overwrite in place when the key exists,
append otherwise. -/
def dictInsert (m : List (String × RobotTask)) (k : String) (v : RobotTask) :
    List (String × RobotTask) :=
  match m with
  | [] => [(k, v)]
  | e :: rest => if e.1 = k then (k, v) :: rest else e :: dictInsert rest k v

/-- `del d[k]` on the association list (removes the first entry with the
key). -/
def eraseKey (m : List (String × RobotTask)) (k : String) :
    List (String × RobotTask) :=
  match m with
  | [] => []
  | e :: rest => if e.1 = k then rest else e :: eraseKey rest k

/-- Fold of Python `min(keys, key=lambda k: d[k].created_time)`: keeps the
first key attaining the minimum (Python `min` replaces only on strictly
smaller values). -/
def oldestAux (m : List (String × RobotTask)) (bk : String) (bt : ℚ) : String × ℚ :=
  match m with
  | [] => (bk, bt)
  | e :: rest =>
      if e.2.createdTime < bt then oldestAux rest e.1 e.2.createdTime
      else oldestAux rest bk bt

/-- `min(self._completed_tasks.keys(), key=...)` over the insertion-ordered
dict; `none` on an empty dict (where the Python call would raise; the code
only evaluates it on a nonempty dict). -/
def oldestKey (m : List (String × RobotTask)) : Option String :=
  match m with
  | [] => none
  | e :: rest => some (oldestAux rest e.1 e.2.createdTime).1

/-- `ActionManager.add_task` (lines 376-405). -/
def add_task (st : TaskState) (taskType : String)
    (pvx pvy pvyaw pdeg : Option ℚ) (duration now : ℚ) : TaskState × String :=
  let task_id := "task_" ++ Nat.repr st.nextTaskId
  let task : RobotTask :=
    { taskId := task_id, taskType := taskType,
      paramVx := pvx, paramVy := pvy, paramVyaw := pvyaw, paramDegrees := pdeg,
      duration := duration, status := TaskStatus.PENDING,
      createdTime := now, startTime := none, endTime := none }
  ({ st with taskQueue := st.taskQueue ++ [task], nextTaskId := st.nextTaskId + 1 },
    task_id)

/-- `ActionManager.clear_task_queue` (lines 407-434): pops every queued
task, marks it `CANCELLED` with `end_time = now` and stores it into
`_completed_tasks`; then cancels the current task likewise.  Note the code
performs no history eviction here. -/
def clear_task_queue (st : TaskState) (now : ℚ) : TaskState × ℕ :=
  let hist := st.taskQueue.foldl
    (fun m t => dictInsert m t.taskId
      { t with status := TaskStatus.CANCELLED, endTime := some now })
    st.completedTasks
  let hist2 := match st.currentTask with
    | some t => dictInsert hist t.taskId
        { t with status := TaskStatus.CANCELLED, endTime := some now }
    | none => hist
  ({ st with taskQueue := [], currentTask := none, completedTasks := hist2 },
    st.taskQueue.length)

/-- The `finally` block of `_task_executor_loop` (lines 536-548): store the
finished task into `_completed_tasks`, clear the current task, and when the
history exceeds `_max_history_size` evict the entry with the oldest
`created_time`. -/
def recordCompleted (st : TaskState) (t : RobotTask) : TaskState :=
  let hist := dictInsert st.completedTasks t.taskId t
  let hist2 :=
    if hist.length > st.maxHistorySize then
      match oldestKey hist with
      | some k => eraseKey hist k
      | none => hist
    else hist
  { st with completedTasks := hist2, currentTask := none }

/-- Result record of a bridge tool handler: the `status`, `task_id`,
`data` payload and optional `warning` of the returned dict (the log-only
`message` field is not modelled). -/
structure ToolResult where
  status : String
  taskId : Option String
  dataVx : Option ℚ
  dataVy : Option ℚ
  dataVyaw : Option ℚ
  dataDuration : Option ℚ
  dataDegrees : Option ℚ
  dataRadians : Option ℚ
  warning : Option String
deriving DecidableEq

/-- `_execute_move_robot` (bridge.py lines 239-284): missing `vx`, `vy`,
`vyaw` default to `0.0`, a missing `duration` stays `None`; the validated
parameters are enqueued as a `move` task. -/
def execute_move_robot (st : TaskState) (pvx pvy pvyaw pdur : Option ℚ)
    (now : ℚ) : TaskState × ToolResult :=
  let vx := pvx.getD 0
  let vy := pvy.getD 0
  let vyaw := pvyaw.getD 0
  let v := validate_movement_params vx vy vyaw pdur
  let is_valid := v.1
  let warning := v.2.1
  let safe := v.2.2
  let a := add_task st "move" (some safe.vx) (some safe.vy) (some safe.vyaw)
    none safe.duration now
  (a.1,
    { status := if is_valid then "success" else "success_with_warning",
      taskId := some a.2,
      dataVx := some safe.vx, dataVy := some safe.vy, dataVyaw := some safe.vyaw,
      dataDuration := some safe.duration, dataDegrees := none, dataRadians := none,
      warning := if warning = "" then none else some warning })

/-- `_execute_rotate_angle` (bridge.py lines 305-360): a missing `degrees`
defaults to `0.0`; the angle is clamped, converted with `math.radians`,
planned at fixed angular speed `omega = 1.0` with `vyaw = omega if radians
> 0 else -omega`, the duration clamped to the envelope, and a `rotate`
task enqueued. -/
def execute_rotate_angle (st : TaskState) (pdeg : Option ℚ) (now : ℚ) :
    TaskState × ToolResult :=
  let degrees := pdeg.getD 0
  let v := validate_rotation_angle degrees
  let is_valid := v.1
  let warning := v.2.1
  let degrees_safe := v.2.2
  let omega : ℚ := 1
  let radians := degrees_safe * PI_FLOAT / 180
  let duration0 := |radians| / omega
  let vyaw := if radians > 0 then omega else -omega
  let duration := max MIN_DURATION (min duration0 MAX_DURATION)
  let a := add_task st "rotate" none none (some vyaw) (some degrees_safe)
    duration now
  (a.1,
    { status := if is_valid then "success" else "success_with_warning",
      taskId := some a.2,
      dataVx := none, dataVy := none, dataVyaw := some vyaw,
      dataDuration := some duration, dataDegrees := some degrees_safe,
      dataRadians := some radians,
      warning := if warning = "" then none else some warning })

/-- `validate_movement_params` on all-default inputs. -/
theorem validate_movement_params_defaults :
    validate_movement_params 0 0 0 none = (true, "", ⟨0, 0, 0, DEFAULT_DURATION⟩) := by
  norm_num [validate_movement_params, MAX_SAFE_SPEED_VX, MAX_SAFE_SPEED_VY,
    MAX_SAFE_OMEGA, min_def, max_def, String.intercalate]

/-- Claim C10: calling the `move_robot` tool with any of `vx`, `vy`,
`vyaw`, `duration` missing substitutes `vx = vy = vyaw = 0.0` and
`duration = DEFAULT_DURATION = 1.0`; in particular an empty parameter map
is not rejected but returns status `"success"` (no warning) and enqueues a
`move` task with velocities `(0, 0, 0)` and duration `1.0`. -/
theorem move_robot_defaults (st : TaskState) (now : ℚ) :
    (execute_move_robot st none none none none now).2.status = "success" ∧
    (execute_move_robot st none none none none now).2.warning = none ∧
    (execute_move_robot st none none none none now).2.dataVx = some 0 ∧
    (execute_move_robot st none none none none now).2.dataVy = some 0 ∧
    (execute_move_robot st none none none none now).2.dataVyaw = some 0 ∧
    (execute_move_robot st none none none none now).2.dataDuration = some 1 ∧
    (execute_move_robot st none none none none now).1.taskQueue =
      st.taskQueue ++
        [{ taskId := "task_" ++ Nat.repr st.nextTaskId, taskType := "move",
           paramVx := some 0, paramVy := some 0, paramVyaw := some 0,
           paramDegrees := none, duration := 1, status := TaskStatus.PENDING,
           createdTime := now, startTime := none, endTime := none }] := by
  simp [execute_move_robot, add_task, validate_movement_params_defaults,
    DEFAULT_DURATION]

/-- Claim C6 (amended): `rotate_angle(d)` first clamps `d` to
`[MIN_ROTATION_DEGREES, MAX_ROTATION_DEGREES]` and then enqueues a
`rotate` task whose duration is `clamp(|d_safe * pi / 180|, MIN_DURATION,
MAX_DURATION)` and whose `vyaw` is `+1.0` when the clamped angle is
positive and `-1.0` otherwise — in particular `vyaw = -1.0` (not
`sign(d) * 1.0 = 0`) at the boundary case `d = 0`. -/
theorem rotate_angle_plan (st : TaskState) (d now : ℚ) :
    ∃ t : RobotTask,
      (execute_rotate_angle st (some d) now).1.taskQueue = st.taskQueue ++ [t] ∧
      t.taskType = "rotate" ∧
      t.paramDegrees = some (max MIN_ROTATION_DEGREES (min d MAX_ROTATION_DEGREES)) ∧
      t.paramVyaw = some
        (if 0 < max MIN_ROTATION_DEGREES (min d MAX_ROTATION_DEGREES) then 1 else -1) ∧
      t.duration = max MIN_DURATION
        (min (|max MIN_ROTATION_DEGREES (min d MAX_ROTATION_DEGREES) * PI_FLOAT / 180|)
          MAX_DURATION) := by
  have hpi : (0 : ℚ) < PI_FLOAT / 180 := by norm_num [PI_FLOAT]
  have hsign :
      (max MIN_ROTATION_DEGREES (min d MAX_ROTATION_DEGREES) * PI_FLOAT / 180 > 0) ↔
        (0 < max MIN_ROTATION_DEGREES (min d MAX_ROTATION_DEGREES)) := by
    rw [gt_iff_lt, mul_div_assoc]
    exact mul_pos_iff_of_pos_right hpi
  refine ⟨_, rfl, rfl, rfl, ?_, ?_⟩
  · exact congrArg some (if_congr hsign rfl rfl)
  · show max MIN_DURATION
        (min (|max MIN_ROTATION_DEGREES (min d MAX_ROTATION_DEGREES) * PI_FLOAT / 180| / 1)
          MAX_DURATION) = _
    rw [div_one]

/-- Counterexample for C6 as stated: `rotate_angle(0)` enqueues a rotate
task with `vyaw = -1.0`, whereas the claim requires `sign(0) * 1.0 = 0`. -/
theorem rotate_angle_zero_counterexample :
    ((execute_rotate_angle initTaskState (some 0) 0).1.taskQueue.map
      (fun t => t.paramVyaw)) = [some (-1)] ∧ some (-(1 : ℚ)) ≠ some (0 : ℚ) := by
  constructor
  · have hrad : (max MIN_ROTATION_DEGREES (min (0 : ℚ) MAX_ROTATION_DEGREES) *
        PI_FLOAT / 180 > 0) = False := by
      norm_num [MIN_ROTATION_DEGREES, MAX_ROTATION_DEGREES, PI_FLOAT,
        min_def, max_def]
    simp [execute_rotate_angle, add_task, validate_rotation_angle, initTaskState, hrad]
  · simp

/-- Whether the character list `pat` is a prefix of `t`. -/
def startsWithL : List Char → List Char → Bool
  | [], _ => true
  | _ :: _, [] => false
  | p :: ps, t :: ts => p == t && startsWithL ps ts

/-- Whether the character list `pat` occurs inside `t`. -/
def containsL (pat : List Char) : List Char → Bool
  | [] => pat.isEmpty
  | t :: ts => startsWithL pat (t :: ts) || containsL pat ts

/-- Substring test: does `s` contain `pat`? -/
def strContains (s pat : String) : Bool := containsL pat.toList s.toList

/-- A concatenation of four conditional singleton warnings is empty exactly
when no condition fired. -/
theorem warnList_empty_iff (c1 c2 c3 c4 : Prop) [Decidable c1] [Decidable c2]
    [Decidable c3] [Decidable c4] (s1 s2 s3 s4 : String) :
    ((if c1 then [s1] else []) ++ (if c2 then [s2] else []) ++
      (if c3 then [s3] else []) ++ (if c4 then [s4] else [])).isEmpty = true ↔
      (¬c1 ∧ ¬c2 ∧ ¬c3 ∧ ¬c4) := by
  split_ifs <;> simp_all

/-- Same for the three velocity warnings (the duration-absent branch). -/
theorem warnList3_empty_iff (c1 c2 c3 : Prop) [Decidable c1] [Decidable c2]
    [Decidable c3] (s1 s2 s3 : String) :
    ((if c1 then [s1] else []) ++ (if c2 then [s2] else []) ++
      (if c3 then [s3] else [])).isEmpty = true ↔ (¬c1 ∧ ¬c2 ∧ ¬c3) := by
  split_ifs <;> simp_all

/-- `f"{3.0:.2f}" = "3.00"`. -/
theorem fmt2_val_3 : fmt2 3 = "3.00" := by
  have h2 : ⌊|(3 : ℚ)| * 100 + 1/2⌋ = (300 : ℤ) := by norm_num [Int.floor_eq_iff]
  norm_num [fmt2, h2]
  rfl

/-- `f"{1.0:.2f}" = "1.00"`. -/
theorem fmt2_val_1 : fmt2 1 = "1.00" := by
  have h2 : ⌊|(1 : ℚ)| * 100 + 1/2⌋ = (100 : ℤ) := by norm_num [Int.floor_eq_iff]
  norm_num [fmt2, h2]
  rfl

/-- `f"{-2.0:.2f}" = "-2.00"`. -/
theorem fmt2_val_neg2 : fmt2 (-2) = "-2.00" := by
  have h2 : ⌊|(-2 : ℚ)| * 100 + 1/2⌋ = (200 : ℤ) := by norm_num [Int.floor_eq_iff]
  norm_num [fmt2, h2]
  rfl

/-- `f"{-1.0:.2f}" = "-1.00"`. -/
theorem fmt2_val_neg1 : fmt2 (-1) = "-1.00" := by
  have h2 : ⌊|(-1 : ℚ)| * 100 + 1/2⌋ = (100 : ℤ) := by norm_num [Int.floor_eq_iff]
  norm_num [fmt2, h2]
  rfl

/-- `f"{5.0:.2f}" = "5.00"`. -/
theorem fmt2_val_5 : fmt2 5 = "5.00" := by
  have h2 : ⌊|(5 : ℚ)| * 100 + 1/2⌋ = (500 : ℤ) := by norm_num [Int.floor_eq_iff]
  norm_num [fmt2, h2]
  rfl

/-- `f"{2.0:.2f}" = "2.00"`. -/
theorem fmt2_val_2 : fmt2 2 = "2.00" := by
  have h2 : ⌊|(2 : ℚ)| * 100 + 1/2⌋ = (200 : ℤ) := by norm_num [Int.floor_eq_iff]
  norm_num [fmt2, h2]
  rfl

/-- `f"{15.0:.2f}" = "15.00"`. -/
theorem fmt2_val_15 : fmt2 15 = "15.00" := by
  have h2 : ⌊|(15 : ℚ)| * 100 + 1/2⌋ = (1500 : ℤ) := by norm_num [Int.floor_eq_iff]
  norm_num [fmt2, h2]
  rfl

/-- `f"{10.0:.2f}" = "10.00"`. -/
theorem fmt2_val_10 : fmt2 10 = "10.00" := by
  have h2 : ⌊|(10 : ℚ)| * 100 + 1/2⌋ = (1000 : ℤ) := by norm_num [Int.floor_eq_iff]
  norm_num [fmt2, h2]
  rfl

/-- The warning string produced by the clamp test
`validate_movement(3.0, -2.0, 5.0, 15.0)`. -/
def clampTestWarning : String :=
  "vx=3.00 超限，已截断为 1.00; vy=-2.00 超限，已截断为 -1.00; " ++
  "vyaw=5.00 超限，已截断为 2.00; duration=15.00 超限，已截断为 10.00"

/-- Concrete evaluation of the clamp test from the spec. -/
theorem validate_clamp_example :
    validate_movement_params 3 (-2) 5 (some 15) =
      (false, clampTestWarning, ⟨1, -1, 2, 10⟩) := by
  have c1 : |(3 : ℚ) - max (-MAX_SAFE_SPEED_VX) (min 3 MAX_SAFE_SPEED_VX)| > 1/1000 := by
    norm_num [MAX_SAFE_SPEED_VX, min_def, max_def]
  have c2 : |(-2 : ℚ) - max (-MAX_SAFE_SPEED_VY) (min (-2) MAX_SAFE_SPEED_VY)| > 1/1000 := by
    norm_num [MAX_SAFE_SPEED_VY, min_def, max_def]
  have c3 : |(5 : ℚ) - max (-MAX_SAFE_OMEGA) (min 5 MAX_SAFE_OMEGA)| > 1/1000 := by
    norm_num [MAX_SAFE_OMEGA, min_def, max_def]
  have c4 : |(15 : ℚ) - max MIN_DURATION (min 15 MAX_DURATION)| > 1/1000 := by
    norm_num [MIN_DURATION, MAX_DURATION, min_def, max_def]
  simp only [validate_movement_params, if_pos c1, if_pos c2, if_pos c3, if_pos c4]
  rw [fmt2_val_3, fmt2_val_neg2, fmt2_val_5, fmt2_val_15]
  norm_num [MAX_SAFE_SPEED_VX, MAX_SAFE_SPEED_VY, MAX_SAFE_OMEGA,
    MIN_DURATION, MAX_DURATION, min_def, max_def]
  rw [fmt2_val_1, fmt2_val_neg1, fmt2_val_2, fmt2_val_10]
  rfl

/-- Claim C5 (amended): `validate_movement_params(vx, vy, vyaw, duration)`
returns each axis clamped to its symmetric envelope, the duration clamped
to `[MIN_DURATION, MAX_DURATION]` when provided and `DEFAULT_DURATION`
when absent, and `ok = true` iff no field was clipped by a delta greater
than `1e-3`; the clamp test `validate_movement_params(3.0, -2.0, 5.0,
15.0)` yields `ok = false`, params `{vx: 1.0, vy: -1.0, vyaw: 2.0,
duration: 10.0}` and the warning `"vx=3.00 超限，已截断为 1.00; ..."` —
the code emits its warnings in Chinese, not as the English text quoted by
the claim. -/
theorem validate_movement_params_spec :
    (∀ vx vy vyaw d : ℚ,
      (validate_movement_params vx vy vyaw (some d)).2.2 =
        ⟨max (-MAX_SAFE_SPEED_VX) (min vx MAX_SAFE_SPEED_VX),
         max (-MAX_SAFE_SPEED_VY) (min vy MAX_SAFE_SPEED_VY),
         max (-MAX_SAFE_OMEGA) (min vyaw MAX_SAFE_OMEGA),
         max MIN_DURATION (min d MAX_DURATION)⟩ ∧
      ((validate_movement_params vx vy vyaw (some d)).1 = true ↔
        (|vx - max (-MAX_SAFE_SPEED_VX) (min vx MAX_SAFE_SPEED_VX)| ≤ 1/1000 ∧
         |vy - max (-MAX_SAFE_SPEED_VY) (min vy MAX_SAFE_SPEED_VY)| ≤ 1/1000 ∧
         |vyaw - max (-MAX_SAFE_OMEGA) (min vyaw MAX_SAFE_OMEGA)| ≤ 1/1000 ∧
         |d - max MIN_DURATION (min d MAX_DURATION)| ≤ 1/1000))) ∧
    (∀ vx vy vyaw : ℚ,
      (validate_movement_params vx vy vyaw none).2.2 =
        ⟨max (-MAX_SAFE_SPEED_VX) (min vx MAX_SAFE_SPEED_VX),
         max (-MAX_SAFE_SPEED_VY) (min vy MAX_SAFE_SPEED_VY),
         max (-MAX_SAFE_OMEGA) (min vyaw MAX_SAFE_OMEGA),
         DEFAULT_DURATION⟩ ∧
      ((validate_movement_params vx vy vyaw none).1 = true ↔
        (|vx - max (-MAX_SAFE_SPEED_VX) (min vx MAX_SAFE_SPEED_VX)| ≤ 1/1000 ∧
         |vy - max (-MAX_SAFE_SPEED_VY) (min vy MAX_SAFE_SPEED_VY)| ≤ 1/1000 ∧
         |vyaw - max (-MAX_SAFE_OMEGA) (min vyaw MAX_SAFE_OMEGA)| ≤ 1/1000))) ∧
    validate_movement_params 3 (-2) 5 (some 15) =
      (false, clampTestWarning, ⟨1, -1, 2, 10⟩) := by
  refine ⟨fun vx vy vyaw d => ⟨rfl, ?_⟩, fun vx vy vyaw => ⟨rfl, ?_⟩,
    validate_clamp_example⟩
  · simp only [validate_movement_params]
    rw [warnList_empty_iff]
    simp [not_lt]
  · simp only [validate_movement_params]
    rw [warnList3_empty_iff]
    simp [not_lt]

/-- Counterexample for C5 as stated: in the clamp test the returned warning
is the Chinese text of the source, which does not contain the substring
`"vx=3.00 out of range, clipped to 1.00"` required by the claim. -/
theorem validate_movement_params_warning_counterexample :
    (validate_movement_params 3 (-2) 5 (some 15)).1 = false ∧
    strContains (validate_movement_params 3 (-2) 5 (some 15)).2.1
      "vx=3.00 out of range, clipped to 1.00" = false := by
  constructor
  · rw [validate_clamp_example]
  · rw [show (validate_movement_params 3 (-2) 5 (some 15)).2.1 = clampTestWarning from
      by rw [validate_clamp_example]]
    decide

/-- Inserting into the dict either overwrites (same length) or appends
(length + 1). -/
theorem dictInsert_length (m : List (String × RobotTask)) (k : String) (v : RobotTask) :
    (dictInsert m k v).length = m.length ∨
      (dictInsert m k v).length = m.length + 1 := by
  induction m with
  | nil => right; rfl
  | cons e rest ih =>
      by_cases h : e.1 = k
      · left; simp [dictInsert, h]
      · rcases ih with h1 | h1
        · left; simp [dictInsert, h, h1]
        · right; simp [dictInsert, h, h1]

/-- Deleting a present key shrinks the dict by exactly one entry. -/
theorem eraseKey_length (m : List (String × RobotTask)) (k : String)
    (h : ∃ e ∈ m, e.1 = k) : (eraseKey m k).length + 1 = m.length := by
  induction m with
  | nil => simp at h
  | cons e rest ih =>
      by_cases he : e.1 = k
      · simp [eraseKey, he]
      · have h' : ∃ f ∈ rest, f.1 = k := by
          obtain ⟨f, hf, hfk⟩ := h
          rcases List.mem_cons.mp hf with rfl | hf2
          · exact absurd hfk he
          · exact ⟨f, hf2, hfk⟩
        have hrec := ih h'
        simp only [eraseKey, if_neg he, List.length_cons]
        omega

/-- The fold behind `min(keys, key=created_time)`: its result is bounded by
the running best and by every entry, and is either the running best or one
of the entries. -/
theorem oldestAux_spec (m : List (String × RobotTask)) : ∀ (bk : String) (bt : ℚ),
    (oldestAux m bk bt).2 ≤ bt ∧
    (∀ p ∈ m, (oldestAux m bk bt).2 ≤ p.2.createdTime) ∧
    (oldestAux m bk bt = (bk, bt) ∨
      ∃ p ∈ m, oldestAux m bk bt = (p.1, p.2.createdTime)) := by
  induction m with
  | nil => intro bk bt; exact ⟨le_refl _, by simp, Or.inl rfl⟩
  | cons e rest ih =>
      intro bk bt
      have hstep : oldestAux (e :: rest) bk bt =
          if e.2.createdTime < bt then oldestAux rest e.1 e.2.createdTime
          else oldestAux rest bk bt := rfl
      by_cases hc : e.2.createdTime < bt
      · rw [hstep, if_pos hc]
        have h1 := ih e.1 e.2.createdTime
        refine ⟨le_trans h1.1 hc.le, ?_, ?_⟩
        · intro p hp
          rcases List.mem_cons.mp hp with rfl | hp2
          · exact h1.1
          · exact h1.2.1 p hp2
        · rcases h1.2.2 with h2 | ⟨p, hp, h2⟩
          · exact Or.inr ⟨e, List.mem_cons_self e rest, h2⟩
          · exact Or.inr ⟨p, List.mem_cons_of_mem e hp, h2⟩
      · rw [hstep, if_neg hc]
        have h1 := ih bk bt
        refine ⟨h1.1, ?_, ?_⟩
        · intro p hp
          rcases List.mem_cons.mp hp with rfl | hp2
          · exact le_trans h1.1 (not_lt.mp hc)
          · exact h1.2.1 p hp2
        · rcases h1.2.2 with h2 | ⟨p, hp, h2⟩
          · exact Or.inl h2
          · exact Or.inr ⟨p, List.mem_cons_of_mem e hp, h2⟩

/-- The key chosen by `oldestKey` belongs to the dict and has minimal
`created_time`. -/
theorem oldestKey_spec (m : List (String × RobotTask)) (k : String)
    (h : oldestKey m = some k) :
    ∃ v, (k, v) ∈ m ∧ ∀ p ∈ m, v.createdTime ≤ p.2.createdTime := by
  cases m with
  | nil => simp [oldestKey] at h
  | cons e rest =>
      have hk : (oldestAux rest e.1 e.2.createdTime).1 = k := by
        simpa [oldestKey] using h
      have hs := oldestAux_spec rest e.1 e.2.createdTime
      rcases hs.2.2 with h2 | ⟨p, hp, h2⟩
      · refine ⟨e.2, ?_, ?_⟩
        · have hke : k = e.1 := by rw [← hk, h2]
          rw [hke]
          exact List.mem_cons_self _ _
        · intro q hq
          rcases List.mem_cons.mp hq with rfl | hq2
          · exact le_refl _
          · have hle := hs.2.1 q hq2
            rw [h2] at hle
            exact hle
      · refine ⟨p.2, ?_, ?_⟩
        · have hkp : k = p.1 := by rw [← hk, h2]
          rw [hkp]
          exact List.mem_cons_of_mem e hp
        · intro q hq
          rcases List.mem_cons.mp hq with rfl | hq2
          · have hle := hs.1
            rw [h2] at hle
            exact hle
          · have hle := hs.2.1 q hq2
            rw [h2] at hle
            exact hle

/-- Claim C7 (amended): the executor-loop completion path keeps the
completed-task ring within its bound, evicting the entry with the oldest
`created_time` when the bound would be exceeded; `clear_task_queue`,
however, moves cancelled tasks into the ring without any eviction (see the
counterexample), so only the executor path maintains the bound. -/
theorem completed_ring_bound (st : TaskState) (t : RobotTask)
    (h : st.completedTasks.length ≤ st.maxHistorySize) :
    (recordCompleted st t).completedTasks.length ≤ st.maxHistorySize ∧
    (∀ k, oldestKey (dictInsert st.completedTasks t.taskId t) = some k →
      ∃ v, (k, v) ∈ dictInsert st.completedTasks t.taskId t ∧
        ∀ p ∈ dictInsert st.completedTasks t.taskId t,
          v.createdTime ≤ p.2.createdTime) := by
  refine ⟨?_, fun k hk => oldestKey_spec _ k hk⟩
  have hlen : (dictInsert st.completedTasks t.taskId t).length ≤ st.maxHistorySize + 1 := by
    rcases dictInsert_length st.completedTasks t.taskId t with h1 | h1 <;> omega
  by_cases hgt : (dictInsert st.completedTasks t.taskId t).length > st.maxHistorySize
  · have hne : dictInsert st.completedTasks t.taskId t ≠ [] := by
      intro hnil
      rw [hnil] at hgt
      simp at hgt
    obtain ⟨e, rest, hcons⟩ := List.exists_cons_of_ne_nil hne
    have hok : oldestKey (dictInsert st.completedTasks t.taskId t) =
        some (oldestAux rest e.1 e.2.createdTime).1 := by
      rw [hcons]; rfl
    obtain ⟨v, hv, _⟩ := oldestKey_spec _ _ hok
    have hmem : ∃ f ∈ dictInsert st.completedTasks t.taskId t,
        f.1 = (oldestAux rest e.1 e.2.createdTime).1 :=
      ⟨((oldestAux rest e.1 e.2.createdTime).1, v), hv, rfl⟩
    have herase := eraseKey_length _ _ hmem
    simp only [recordCompleted, if_pos hgt, hok]
    omega
  · simp only [recordCompleted, if_neg hgt]
    omega

/-- A concrete completed task used by the witness. -/
def exampleCompletedTask : RobotTask :=
  { taskId := "task_0", taskType := "move", paramVx := some 0, paramVy := some 0,
    paramVyaw := some 0, paramDegrees := none, duration := 1,
    status := TaskStatus.COMPLETED, createdTime := 0, startTime := some 0,
    endTime := some 1 }

/-- Witness for C7 (amended) at the initial (empty-ring) state. -/
theorem completed_ring_bound_witness :
    (recordCompleted initTaskState exampleCompletedTask).completedTasks.length ≤
      initTaskState.maxHistorySize ∧
    (∀ k, oldestKey (dictInsert initTaskState.completedTasks
        exampleCompletedTask.taskId exampleCompletedTask) = some k →
      ∃ v, (k, v) ∈ dictInsert initTaskState.completedTasks
          exampleCompletedTask.taskId exampleCompletedTask ∧
        ∀ p ∈ dictInsert initTaskState.completedTasks
            exampleCompletedTask.taskId exampleCompletedTask,
          v.createdTime ≤ p.2.createdTime) :=
  completed_ring_bound initTaskState exampleCompletedTask (Nat.zero_le _)

/-- 101 `move` tasks enqueued through `add_task` from the initial state. -/
def overflowState : TaskState :=
  (List.range 101).foldl
    (fun st i => (add_task st "move" (some 0) (some 0) (some 0) none 1 (i : ℚ)).1)
    initTaskState

set_option maxRecDepth 20000 in
/-- Counterexample for C7 as stated: with 101 pending tasks (reachable via
101 `add_task` calls), `clear_task_queue` cancels them all into the
completed-task ring with no eviction, leaving 101 entries — above the
bound of 100. -/
theorem completed_ring_clear_overflow_counterexample :
    overflowState.maxHistorySize = 100 ∧
    (clear_task_queue overflowState 200).1.completedTasks.length = 101 ∧
    overflowState.maxHistorySize <
      (clear_task_queue overflowState 200).1.completedTasks.length := by
  have h1 : overflowState.maxHistorySize = 100 := rfl
  have h2 : (clear_task_queue overflowState 200).1.completedTasks.length = 101 := rfl
  refine ⟨h1, h2, ?_⟩
  rw [h1, h2]
  norm_num

end UnitreeG1
